import Mathlib

/-!
Verification development for the godns dynamic-DNS updater.

The Go sources are shallowly embedded:
* the supervisor loop `dnsLoop` (cmd/godns/godns.go) as a step function over
  an explicit supervisor state, one step per failure report received on the
  panic channel;
* the per-domain update loops (`DomainLoop` of the dnspod, cloudflare and he
  handlers) as functions from an iteration environment (the results of the
  external IP-source, resolver and provider calls) to a trace of events;
* the pure helpers (`CheckSettings`, `CreateHandler`, `GetCurrentIP`,
  `SendNotify` / `SaveToInfluxDB`, `GetSubDomain`) as functions with the
  external I/O results passed in as arguments.
-/

namespace Godns

/-- PanicMax is the max allowed panic times (source constant, value 5). -/
def PanicMax : Nat := 5

/-- DNSPOD for dnspod.cn (source constant). -/
def DNSPOD : String := "DNSPod"

/-- HE for he.net (source constant). -/
def HE : String := "HE"

/-- CLOUDFLARE for cloudflare.com (source constant). -/
def CLOUDFLARE : String := "Cloudflare"

/-- ALIDNS for AliDNS (source constant). -/
def ALIDNS : String := "AliDNS"

/-- GOOGLE for Google Domains (source constant). -/
def GOOGLE : String := "Google"

/-- DUCK for Duck DNS (source constant). -/
def DUCK : String := "DuckDNS"

/-- DREAMHOST for Dreamhost (source constant). -/
def DREAMHOST : String := "Dreamhost"

/-- NOIP for NoIP (source constant). -/
def NOIP : String := "NoIP"

/-- IPV4 for IPV4 mode (source constant). -/
def IPV4 : String := "IPV4"

/-- IPV6 for IPV6 mode (source constant). -/
def IPV6 : String := "IPV6"

/-!
## Supervisor (`dnsLoop` in cmd/godns/godns.go)

The supervisor blocks on the panic channel; on each received `Domain` it
starts a replacement `DomainLoop` goroutine, increments the global
`panicCount`, and calls `os.Exit(1)` once `panicCount >= PanicMax`.
Domains are identified here by a `Nat` tag; the state records, in order,
every replacement loop started so far, the global counter, and the exit
code once `os.Exit` has run.
-/

/-- Supervisor state of `dnsLoop`: the replacement loops started so far (the
reported domains, in report order), the global `panicCount`, and the exit
code once the process has exited. -/
structure SupState where
  restarts : List Nat
  panicCount : Nat
  exitCode : Option Nat
deriving DecidableEq, Repr

/-- Initial supervisor state: `panicCount := 0`, no replacements, running. -/
def initSup : SupState := ⟨[], 0, none⟩

/-- One turn of `dnsLoop`'s `for` body: receive a failure report `d` from the
panic channel, start a replacement loop for `d`, increment `panicCount`, and
exit with status 1 if the counter has reached `PanicMax`. After `os.Exit`
the process is gone, so an exited state absorbs further steps. -/
def dnsLoopStep (s : SupState) (d : Nat) : SupState :=
  if s.exitCode.isSome then s
  else
    let s' : SupState := ⟨s.restarts ++ [d], s.panicCount + 1, s.exitCode⟩
    if PanicMax ≤ s'.panicCount then ⟨s'.restarts, s'.panicCount, some 1⟩
    else s'

/-- Run the supervisor over a finite sequence of failure reports. -/
def dnsLoopRun (ds : List Nat) : SupState :=
  ds.foldl dnsLoopStep initSup

theorem dnsLoopStep_exited (s : SupState) (d : Nat) (h : s.exitCode.isSome) :
    dnsLoopStep s d = s := by
  simp [dnsLoopStep, h]

theorem dnsLoopRun_aux_no_exit (ds : List Nat) :
    ∀ s : SupState, s.exitCode = none → s.panicCount + ds.length < PanicMax →
      List.foldl dnsLoopStep s ds = ⟨s.restarts ++ ds, s.panicCount + ds.length, none⟩ := by
  induction ds with
  | nil =>
    intro s hs _
    cases s
    simp_all
  | cons d rest ih =>
    intro s hs hlt
    simp only [List.length_cons] at hlt
    have hnot : ¬ PanicMax ≤ s.panicCount + 1 := by omega
    have hstep : dnsLoopStep s d = ⟨s.restarts ++ [d], s.panicCount + 1, none⟩ := by
      simp [dnsLoopStep, hs, hnot]
    have hrec : (⟨s.restarts ++ [d], s.panicCount + 1, none⟩ : SupState).panicCount
        + rest.length < PanicMax := by
      show s.panicCount + 1 + rest.length < PanicMax
      omega
    rw [List.foldl_cons, hstep, ih ⟨s.restarts ++ [d], s.panicCount + 1, none⟩ rfl hrec]
    have harith : s.panicCount + 1 + rest.length = s.panicCount + (rest.length + 1) := by omega
    simp only [List.length_cons, List.append_assoc, List.singleton_append, harith]

theorem dnsLoopRun_aux_exit (ds : List Nat) :
    ∀ s : SupState, s.exitCode = none → s.panicCount + ds.length = PanicMax → ds ≠ [] →
      (List.foldl dnsLoopStep s ds).exitCode = some 1 ∧
      (List.foldl dnsLoopStep s ds).panicCount = PanicMax := by
  induction ds with
  | nil => intro s _ _ hne; exact absurd rfl hne
  | cons d rest ih =>
    intro s hs hlen _
    simp only [List.length_cons] at hlen
    by_cases hge : PanicMax ≤ s.panicCount + 1
    · have hr : rest.length = 0 := by omega
      have hrest : rest = [] := List.length_eq_zero.mp hr
      have hstep : dnsLoopStep s d = ⟨s.restarts ++ [d], s.panicCount + 1, some 1⟩ := by
        simp [dnsLoopStep, hs, hge]
      subst hrest
      rw [List.foldl_cons, hstep]
      simp only [List.foldl_nil]
      refine ⟨by trivial, ?_⟩
      show s.panicCount + 1 = PanicMax
      simp only [List.length_nil] at hlen
      omega
    · have hstep : dnsLoopStep s d = ⟨s.restarts ++ [d], s.panicCount + 1, none⟩ := by
        simp [dnsLoopStep, hs, hge]
      have hne : rest ≠ [] := by
        intro hr
        subst hr
        simp only [List.length_nil] at hlen
        omega
      have hrec : (⟨s.restarts ++ [d], s.panicCount + 1, none⟩ : SupState).panicCount
          + rest.length = PanicMax := by
        show s.panicCount + 1 + rest.length = PanicMax
        omega
      rw [List.foldl_cons, hstep]
      exact ih ⟨s.restarts ++ [d], s.panicCount + 1, none⟩ rfl hrec hne

/-- C1: after N failure reports with N < 5, the supervisor has started exactly
N replacement loops (one per reported domain, in order, across all domains),
the single global counter equals N and has never been reset, and the process
is still running; on any sequence of exactly 5 reports the process exits with
status 1 with the global counter at 5. -/
theorem dnsLoop_recovery_bound (ds ds5 : List Nat)
    (h : ds.length < PanicMax) (h5 : ds5.length = PanicMax) :
    (dnsLoopRun ds).restarts = ds ∧
    (dnsLoopRun ds).panicCount = ds.length ∧
    (dnsLoopRun ds).exitCode = none ∧
    (dnsLoopRun ds5).exitCode = some 1 ∧
    (dnsLoopRun ds5).panicCount = PanicMax := by
  have h1 := dnsLoopRun_aux_no_exit ds initSup rfl (by simpa [initSup] using h)
  have h2 := dnsLoopRun_aux_exit ds5 initSup rfl (by simpa [initSup] using h5)
      (by intro he; subst he; simp [PanicMax] at h5)
  refine ⟨?_, ?_, ?_, ?_, ?_⟩
  · rw [dnsLoopRun, h1]; simp [initSup]
  · rw [dnsLoopRun, h1]; simp [initSup]
  · rw [dnsLoopRun, h1]
  · exact h2.1
  · exact h2.2

/-- C1 witness: three failure reports leave the supervisor running with three
replacements; five reports exit the process with status 1. -/
theorem dnsLoop_recovery_bound_witness :
    ([7, 8, 9] : List Nat).length < PanicMax ∧
    ([1, 2, 3, 4, 5] : List Nat).length = PanicMax ∧
    ((dnsLoopRun [7, 8, 9]).restarts = [7, 8, 9] ∧
     (dnsLoopRun [7, 8, 9]).panicCount = 3 ∧
     (dnsLoopRun [7, 8, 9]).exitCode = none ∧
     (dnsLoopRun [1, 2, 3, 4, 5]).exitCode = some 1 ∧
     (dnsLoopRun [1, 2, 3, 4, 5]).panicCount = PanicMax) :=
  ⟨by decide, by decide,
    by
      have := dnsLoop_recovery_bound [7, 8, 9] [1, 2, 3, 4, 5] (by decide) (by decide)
      simpa using this⟩

/-!
## Settings, `CheckSettings` and `CreateHandler`

Only the `Settings` fields read by the embedded functions are modelled.
-/

/-- Settings fields used by `CheckSettings` and `GetCurrentIP`. -/
structure Settings where
  Provider : String
  Email : String
  Password : String
  LoginToken : String
  IPUrl : String
  IPV6Url : String
  IPInterface : String
deriving DecidableEq, Repr

/-- The eight provider handler variants `CreateHandler` can construct. -/
inductive ProviderHandler where
  | cloudflare
  | dnspod
  | dreamhost
  | he
  | alidns
  | google
  | duck
  | noip
deriving DecidableEq, Repr

/-- CreateHandler creates DNS handler by different providers; the Go `switch`
leaves `handler` nil (here `none`) for any other provider string. -/
def CreateHandler (provider : String) : Option ProviderHandler :=
  if provider = CLOUDFLARE then some .cloudflare
  else if provider = DNSPOD then some .dnspod
  else if provider = DREAMHOST then some .dreamhost
  else if provider = HE then some .he
  else if provider = ALIDNS then some .alidns
  else if provider = GOOGLE then some .google
  else if provider = DUCK then some .duck
  else if provider = NOIP then some .noip
  else none

/-- CheckSettings checks the format of settings; `none` means a nil error.
The `GOOGLE` case falls through to the `NOIP` case in the Go switch. -/
def CheckSettings (config : Settings) : Option String :=
  if config.Provider = DNSPOD then
    if config.Password = "" ∧ config.LoginToken = "" then
      some "password or login token cannot be empty"
    else none
  else if config.Provider = HE then
    if config.Password = "" then some "password cannot be empty" else none
  else if config.Provider = CLOUDFLARE then
    if config.LoginToken = "" then
      if config.Email = "" then some "email cannot be empty"
      else if config.Password = "" then some "password cannot be empty"
      else none
    else none
  else if config.Provider = ALIDNS then
    if config.Email = "" then some "email cannot be empty"
    else if config.Password = "" then some "password cannot be empty"
    else none
  else if config.Provider = DUCK then
    if config.LoginToken = "" then some "login token cannot be empty" else none
  else if config.Provider = GOOGLE ∨ config.Provider = NOIP then
    if config.Email = "" then some "email cannot be empty"
    else if config.Password = "" then some "password cannot be empty"
    else none
  else if config.Provider = DREAMHOST then
    if config.LoginToken = "" then some "login token cannot be empty" else none
  else
    some "please provide supported DNS provider: DNSPod/HE/AliDNS/Cloudflare/GoogleDomain/DuckDNS/Dreamhost"

/-- C10: `CreateHandler p` is non-nil exactly for the eight supported provider
constants, and any settings accepted by `CheckSettings` name one of them, so
the startup path never receives a nil handler. -/
theorem createHandler_total_on_checked_settings (p : String) (cfg : Settings)
    (h : CheckSettings cfg = none) :
    ((CreateHandler p).isSome ↔
      (p = CLOUDFLARE ∨ p = DNSPOD ∨ p = DREAMHOST ∨ p = HE ∨
       p = ALIDNS ∨ p = GOOGLE ∨ p = DUCK ∨ p = NOIP)) ∧
    (CreateHandler cfg.Provider).isSome := by
  constructor
  · unfold CreateHandler
    split_ifs <;> simp_all
  · unfold CheckSettings at h
    unfold CreateHandler
    split_ifs at h ⊢ <;> simp_all

/-- C10 witness: a DNSPod configuration with a password passes `CheckSettings`
and yields a handler; the membership characterisation holds at "HE". -/
theorem createHandler_total_on_checked_settings_witness :
    CheckSettings ⟨"DNSPod", "", "secret", "", "", "", ""⟩ = none ∧
    (((CreateHandler "HE").isSome ↔
      ("HE" = CLOUDFLARE ∨ "HE" = DNSPOD ∨ "HE" = DREAMHOST ∨ "HE" = HE ∨
       "HE" = ALIDNS ∨ "HE" = GOOGLE ∨ "HE" = DUCK ∨ "HE" = NOIP)) ∧
     (CreateHandler (Settings.mk "DNSPod" "" "secret" "" "" "" "").Provider).isSome) :=
  ⟨by decide,
    createHandler_total_on_checked_settings "HE" ⟨"DNSPod", "", "secret", "", "", "", ""⟩
      (by decide)⟩

/-!
## `GetCurrentIP`

The online lookup (`GetIPOnline`) and the interface lookup
(`GetIPFromInterface`) are external I/O; their results are arguments.
In the Go source both inner calls use `ip, err := ...`, declaring fresh
`err` variables that shadow the outer `var err error`, so the final
`return "", err` always returns a nil error; the embedding reproduces that
by returning `("", none)` on the fall-through paths.
-/

/-- GetCurrentIP gets an IP from either internet or specific interface,
depending on configuration; `online` and `iface` are the results of
`GetIPOnline` and `GetIPFromInterface`. -/
def GetCurrentIP (configuration : Settings) (online iface : Except String String) :
    String × Option String :=
  if configuration.IPUrl ≠ "" ∨ configuration.IPV6Url ≠ "" then
    match online with
    | .ok ip => (ip, none)
    | .error _ =>
      if configuration.IPInterface ≠ "" then
        match iface with
        | .ok ip => (ip, none)
        | .error _ => ("", none)
      else ("", none)
  else
    if configuration.IPInterface ≠ "" then
      match iface with
      | .ok ip => (ip, none)
      | .error _ => ("", none)
    else ("", none)

/-- C9: `GetCurrentIP` returns the pair of an empty IP string and a nil error
when the configured online lookup fails with no interface configured, and
also when no discovery method is configured at all — the inner `ip, err :=`
bindings shadow the outer `err`, so the trailing `return "", err` returns
nil. -/
theorem getCurrentIP_empty_with_nil_error :
    GetCurrentIP ⟨"DNSPod", "", "secret", "", "https://myip.example", "", ""⟩
      (.error "connection refused") (.error "unused") = ("", none) ∧
    GetCurrentIP ⟨"DNSPod", "", "secret", "", "", "", ""⟩
      (.error "unused") (.error "unused") = ("", none) := by
  decide

/-!
## The Notifier (`SendNotify` and `SaveToInfluxDB`)

`SendNotify` fans out to the Telegram, mail, Slack and InfluxDB sinks,
logging and discarding each sink's returned error, and returns nil.
`SaveToInfluxDB` splits `currentIP` on "." and indexes the parts at
0..3 without a length check; a Go index-out-of-range panic is modelled
as the `fault` outcome, which propagates to `SendNotify`'s caller.
-/

/-- Outcome of a notifier call: a normal return (the returned error is always
nil in the source) or an escaping runtime fault (Go panic). -/
inductive NotifyOutcome where
  | ok : NotifyOutcome
  | fault (msg : String) : NotifyOutcome
deriving DecidableEq, Repr

/-- Results of the three I/O notification sinks (an error is logged and
swallowed by `SendNotify`), plus the InfluxDB sink's enabled flag. -/
structure NotifySinks where
  telegramErr : Option String
  mailErr : Option String
  slackErr : Option String
  influxEnabled : Bool
deriving Repr

/-- Splitting a character list around each '.' occurrence, with the semantics
of Go `strings.Split(s, ".")`: the result always has at least one part, and
a string with no '.' yields the single part equal to the whole string. -/
def splitOnDot : List Char → List (List Char)
  | [] => [[]]
  | c :: rest =>
    if c = '.' then [] :: splitOnDot rest
    else
      match splitOnDot rest with
      | [] => [[c]]
      | h :: t => (c :: h) :: t

/-- Decimal digit accumulation for `goAtoi`; `none` when empty or any
character is not a digit. -/
def digitsToNat (s : List Char) : Option Nat :=
  if s = [] then none
  else
    s.foldl
      (fun acc c =>
        acc.bind fun n => if c.isDigit then some (n * 10 + (c.toNat - '0'.toNat)) else none)
      (some 0)

/-- Result of Go `strconv.Atoi` on a character list (sign then digits);
overflow is not modelled — only success versus error matters here. -/
def goAtoi (s : List Char) : Option Int :=
  match s with
  | '-' :: rest => (digitsToNat rest).map fun n => -(n : Int)
  | '+' :: rest => (digitsToNat rest).map fun n => (n : Int)
  | _ => (digitsToNat s).map fun n => (n : Int)

/-- SaveToInfluxDB logs to influx if IP is changed: it splits `currentIP` on
".", converts parts 0..3 with `strconv.Atoi` (the indexing `s[1]`..`s[3]`
panics when the split has fewer than 4 parts), writes a point only when the
last conversion succeeded (only the last `err` assignment is checked), and
returns nil either way. -/
def SaveToInfluxDB (influxEnabled : Bool) (currentIP : String) : NotifyOutcome :=
  if influxEnabled = false then .ok
  else
    let s := splitOnDot currentIP.data
    if 4 ≤ s.length then
      match goAtoi (s.getD 3 []) with
      | some _ => .ok
      | none => .ok
    else .fault "runtime error: index out of range"

/-- SendNotify sends notify if IP is changed: each sink error is logged and
swallowed, and the function returns nil — unless a sink panics, in which case
the fault escapes to the caller. -/
def SendNotify (sinks : NotifySinks) (domain currentIP : String) : NotifyOutcome :=
  match SaveToInfluxDB sinks.influxEnabled currentIP with
  | .ok => .ok
  | .fault m => .fault m

/-- C6: `SendNotify` swallows every sink error and returns normally for
dotted-quad IPs or with the InfluxDB sink disabled, but with the InfluxDB
sink enabled an IPv6 `currentIP` such as "::1" splits on "." into fewer than
4 parts and the unchecked indexing panics, so a fault escapes to the
caller. -/
theorem sendNotify_ipv6_influx_fault :
    SendNotify ⟨some "telegram down", some "smtp down", some "slack down", true⟩
      "home.example.com" "::1" = .fault "runtime error: index out of range" ∧
    SendNotify ⟨some "telegram down", some "smtp down", some "slack down", false⟩
      "home.example.com" "::1" = .ok ∧
    SendNotify ⟨some "telegram down", none, none, true⟩
      "home.example.com" "1.2.3.4" = .ok := by
  decide

/-!
## Domain update loops as event traces

One iteration of a `DomainLoop` is embedded as a function from the results
of its external calls (an environment) to the list of observable events of
that iteration, in program order: provider API calls, notifications, and the
log lines taken at the various skip paths. Sleeping and the `looping` flag
do not affect the trace and are not modelled.
-/

/-- A configured domain: zone name plus tracked subdomain labels. -/
structure Domain where
  DomainName : String
  SubDomains : List String
deriving DecidableEq, Repr

/-- Observable events of one `DomainLoop` iteration. -/
inductive Ev where
  | provDomainList
  | provRecordList (sub : String)
  | provZoneList
  | provDnsRecords
  | provUpdate (name ip : String)
  | notify (name ip : String)
  | logIPFail
  | logResolveFail
  | logSkip
  | logSkipRecord (name : String)
  | logRecordOK (name : String)
  | logNotConfigured (sub : String)
  | logSame (sub : String)
  | logZoneFail
deriving DecidableEq, Repr

/-- Provider Client calls among the events (notifications are not provider
calls). -/
def isProviderCall : Ev → Bool
  | .provDomainList => true
  | .provRecordList _ => true
  | .provZoneList => true
  | .provDnsRecords => true
  | .provUpdate _ _ => true
  | _ => false

/-- Go `strings.TrimRight(s, "\n")`: drop trailing newline characters. -/
def trimRightNewline (s : String) : String :=
  String.mk ((s.data.reverse.dropWhile fun c => c == '\n').reverse)

/-- Follows the spec's words, for comparison with the source's
`trimRightNewline`: trimming trailing newline/whitespace from a string. -/
def specTrimTrailing (s : String) : String :=
  String.mk
    ((s.data.reverse.dropWhile fun c => c == '\n' || c == '\r' || c == ' ' || c == '\t').reverse)

/-!
### Cloudflare handler (`DomainLoop` in handler/cloudflare)

The loop keeps a single `lastIP` string for the whole domain. Each
iteration: get current IP (skip iteration on failure); if it equals
`lastIP`, skip; otherwise look up the zone, list the DNS records, and for
every tracked record whose stored IP differs, call `updateRecord` —
whose return value (the new IP on success, "" on failure) is assigned to
`lastIP` — and then send a notification unconditionally.
-/

/-- A Cloudflare DNS record (fields used by the loop). -/
structure DNSRecord where
  ID : String
  IP : String
  Name : String
deriving DecidableEq, Repr

/-- Check if record is present in domain conf (source `recordTracked`). -/
def recordTracked (domain : Domain) (record : DNSRecord) : Bool :=
  domain.SubDomains.any fun subDomain => record.Name = subDomain ++ "." ++ domain.DomainName

/-- Environment of one cloudflare iteration: result of `GetCurrentIP`, the
zone id found by `getZone` ("" on failure), the records returned by
`getDNSRecords`, and per-record-id success of `updateRecord`. -/
structure CfEnv where
  currentIP : Except String String
  zoneID : String
  records : List DNSRecord
  updateOk : String → Bool

/-- Body of the cloudflare record `for` loop, threading the accumulated
events and the loop-local `lastIP`: untracked records are skipped; on an IP
mismatch `updateRecord` runs (returning the new IP on success and "" on
failure, assigned to `lastIP`) and a notification is sent unconditionally. -/
def cfLoopBody (env : CfEnv) (domain : Domain) (currentIP : String)
    (st : List Ev × String) (rec : DNSRecord) : List Ev × String :=
  if recordTracked domain rec = false then
    (st.1 ++ [.logSkipRecord rec.Name], st.2)
  else if rec.IP ≠ currentIP then
    (st.1 ++ [.provUpdate rec.Name currentIP, .notify rec.Name currentIP],
      if env.updateOk rec.ID then currentIP else "")
  else
    (st.1 ++ [.logRecordOK rec.Name], st.2)

/-- One iteration of the cloudflare `DomainLoop`: events in program order and
the resulting `lastIP`. -/
def cfIteration (domain : Domain) (env : CfEnv) (lastIP : String) : List Ev × String :=
  match env.currentIP with
  | .error _ => ([.logIPFail], lastIP)
  | .ok currentIP =>
    if currentIP = lastIP then ([.logSkip], lastIP)
    else
      if env.zoneID ≠ "" then
        env.records.foldl (cfLoopBody env domain currentIP)
          ([.provZoneList, .provDnsRecords], lastIP)
      else
        ([.provZoneList, .logZoneFail], lastIP)

/-- Several consecutive cloudflare iterations of the same loop instance,
threading `lastIP` and concatenating the event traces. -/
def cfRun (domain : Domain) (envs : List CfEnv) (st : List Ev × String) : List Ev × String :=
  envs.foldl
    (fun st env =>
      let r := cfIteration domain env st.2
      (st.1 ++ r.1, r.2))
    st

/-!
### DNSPod handler (`DomainLoop` in handler/dnspod)

Each iteration first calls `GetDomain` (a `/Domain.List` provider call) and
skips the iteration if it returns -1, then gets the current IP (skipping the
iteration on failure), then processes each subdomain: resolve its published
IP, skip on equality with the current IP, otherwise call `GetSubDomain`
(a `/Record.List` provider call), skip if the record is not configured, and
update (followed by an unconditional notification — `UpdateIP` does not
report success) when the current IP and the listed record value differ after
`strings.TrimRight(·, "\n")` on both. -/

/-- Environment of one dnspod iteration: `GetDomain` result, `GetCurrentIP`
result, resolver results by hostname, and `GetSubDomain` results (record id
and value, "" for missing) by subdomain. -/
structure DpEnv where
  domainID : Int
  currentIP : Except String String
  resolve : String → Except String String
  getSub : String → String × String

/-- Events of processing one dnspod subdomain within an iteration. -/
def dnspodSubEvents (env : DpEnv) (domainName currentIP sub : String) : List Ev :=
  match env.resolve (sub ++ "." ++ domainName) with
  | .error _ => [.logResolveFail]
  | .ok lastIP =>
    if currentIP = lastIP then [.logSkip]
    else
      let p := env.getSub sub
      .provRecordList sub ::
        (if p.1 = "" ∨ p.2 = "" then [.logNotConfigured sub]
         else if 0 < p.2.length ∧ trimRightNewline currentIP ≠ trimRightNewline p.2 then
           [.provUpdate (sub ++ "." ++ domainName) currentIP,
            .notify (sub ++ "." ++ domainName) currentIP]
         else [.logSame sub])

/-- The dnspod subdomain `for` loop: subdomains processed in order. -/
def dnspodSubsEvents (env : DpEnv) (domainName currentIP : String) : List String → List Ev
  | [] => []
  | sub :: rest =>
    dnspodSubEvents env domainName currentIP sub ++ dnspodSubsEvents env domainName currentIP rest

/-- One iteration of the dnspod `DomainLoop`. -/
def dnspodIteration (domain : Domain) (env : DpEnv) : List Ev :=
  if env.domainID = -1 then [.provDomainList]
  else
    match env.currentIP with
    | .error _ => [.provDomainList, .logIPFail]
    | .ok currentIP =>
      .provDomainList :: dnspodSubsEvents env domain.DomainName currentIP domain.SubDomains

/-!
### HE handler (`DomainLoop` in handler/he)

Each iteration gets the current IP (skipping the iteration on failure) and
processes each subdomain: resolve its published IP, compare with raw string
equality (no trimming), and on a difference call `UpdateIP` (which does not
report success) followed by an unconditional notification. -/

/-- Environment of one he iteration. -/
structure HeEnv where
  currentIP : Except String String
  resolve : String → Except String String

/-- Events of processing one he subdomain within an iteration. -/
def heSubEvents (env : HeEnv) (domainName currentIP sub : String) : List Ev :=
  match env.resolve (sub ++ "." ++ domainName) with
  | .error _ => [.logResolveFail]
  | .ok lastIP =>
    if currentIP = lastIP then [.logSkip]
    else
      [.provUpdate (sub ++ "." ++ domainName) currentIP,
       .notify (sub ++ "." ++ domainName) currentIP]

/-- The he subdomain `for` loop: subdomains processed in order. -/
def heSubsEvents (env : HeEnv) (domainName currentIP : String) : List String → List Ev
  | [] => []
  | sub :: rest =>
    heSubEvents env domainName currentIP sub ++ heSubsEvents env domainName currentIP rest

/-- One iteration of the he `DomainLoop`. -/
def heIteration (domain : Domain) (env : HeEnv) : List Ev :=
  match env.currentIP with
  | .error _ => [.logIPFail]
  | .ok currentIP => heSubsEvents env domain.DomainName currentIP domain.SubDomains

/-!
### DNSPod `GetSubDomain`

`GetSubDomain` posts `/Record.List`; on a transport, parse or ip-type
failure (`response = none`) or a non-"1" status it returns `("", "")`, and
otherwise scans the returned records for the first one whose name matches,
returning `("", "")` when the list holds no match (in particular when it is
empty, after logging "records slice is empty."). -/

/-- A DNSPod record as read from the `/Record.List` response. -/
structure DpRecord where
  name : String
  id : String
  value : String
deriving DecidableEq, Repr

/-- GetSubDomain returns subdomain id and value by domain id; `response` is
`none` for the early-return failure paths (bad ip_type, transport error,
parse error) and otherwise carries the status code and record list. -/
def GetSubDomain (response : Option (String × List DpRecord)) (name : String) :
    String × String :=
  match response with
  | none => ("", "")
  | some (status, records) =>
    if status = "1" then
      match records.find? fun r => r.name = name with
      | some r => (r.id, r.value)
      | none => ("", "")
    else ("", "")

/-!
### Factoring the cloudflare record loop

`cfLoopBody` appends events that depend only on the record and updates the
`lastIP` component independently of the accumulated events; `cfAdd`/`cfUpd`
name these two components and `cfFold_eq` factors the fold. -/

/-- Events contributed by one record of the cloudflare record loop. -/
def cfAdd (domain : Domain) (currentIP : String) (rec : DNSRecord) : List Ev :=
  if recordTracked domain rec = false then [.logSkipRecord rec.Name]
  else if rec.IP ≠ currentIP then
    [.provUpdate rec.Name currentIP, .notify rec.Name currentIP]
  else [.logRecordOK rec.Name]

/-- Effect of one record of the cloudflare record loop on `lastIP`. -/
def cfUpd (env : CfEnv) (domain : Domain) (currentIP : String)
    (last : String) (rec : DNSRecord) : String :=
  if recordTracked domain rec = false then last
  else if rec.IP ≠ currentIP then (if env.updateOk rec.ID then currentIP else "")
  else last

/-- Events contributed by a list of records, in order. -/
def cfAddAll (domain : Domain) (currentIP : String) : List DNSRecord → List Ev
  | [] => []
  | r :: t => cfAdd domain currentIP r ++ cfAddAll domain currentIP t

theorem cfLoopBody_eq (env : CfEnv) (domain : Domain) (currentIP : String)
    (st : List Ev × String) (rec : DNSRecord) :
    cfLoopBody env domain currentIP st rec =
      (st.1 ++ cfAdd domain currentIP rec, cfUpd env domain currentIP st.2 rec) := by
  unfold cfLoopBody cfAdd cfUpd
  split_ifs <;> rfl

theorem cfFold_eq (env : CfEnv) (domain : Domain) (currentIP : String) :
    ∀ (l : List DNSRecord) (st : List Ev × String),
      l.foldl (cfLoopBody env domain currentIP) st =
        (st.1 ++ cfAddAll domain currentIP l, l.foldl (cfUpd env domain currentIP) st.2) := by
  intro l
  induction l with
  | nil => intro st; cases st; simp [cfAddAll]
  | cons r t ih =>
    intro st
    rw [List.foldl_cons, cfLoopBody_eq, ih, List.foldl_cons]
    simp [cfAddAll, List.append_assoc]

theorem cfAddAll_append (domain : Domain) (currentIP : String) (l1 l2 : List DNSRecord) :
    cfAddAll domain currentIP (l1 ++ l2) =
      cfAddAll domain currentIP l1 ++ cfAddAll domain currentIP l2 := by
  induction l1 with
  | nil => simp [cfAddAll]
  | cons r t ih => simp [cfAddAll, ih]

theorem cfAdd_pair (domain : Domain) (currentIP : String) (rec : DNSRecord) (n ip : String) :
    (Ev.notify n ip ∈ cfAdd domain currentIP rec ↔
      Ev.provUpdate n ip ∈ cfAdd domain currentIP rec) := by
  unfold cfAdd
  split_ifs <;> simp

theorem cfAddAll_pair (domain : Domain) (currentIP : String) (l : List DNSRecord)
    (n ip : String) :
    (Ev.notify n ip ∈ cfAddAll domain currentIP l ↔
      Ev.provUpdate n ip ∈ cfAddAll domain currentIP l) := by
  induction l with
  | nil => simp [cfAddAll]
  | cons r t ih =>
    simp only [cfAddAll, List.mem_append]
    exact or_congr (cfAdd_pair domain currentIP r n ip) ih

theorem cfIteration_pair (domain : Domain) (env : CfEnv) (lastIP n ip : String) :
    (Ev.notify n ip ∈ (cfIteration domain env lastIP).1 ↔
      Ev.provUpdate n ip ∈ (cfIteration domain env lastIP).1) := by
  rcases henv : env.currentIP with e | c
  · simp [cfIteration, henv]
  · by_cases h1 : c = lastIP
    · simp [cfIteration, henv, h1]
    · by_cases h2 : env.zoneID ≠ ""
      · simp only [cfIteration, henv, if_neg h1, if_pos h2, cfFold_eq, List.mem_append]
        refine or_congr ?_ (cfAddAll_pair domain c env.records n ip)
        simp
      · simp [cfIteration, henv, h1, h2]

/-!
### DNSPod and HE pairing of updates and notifications -/

theorem dnspodSubEvents_pair (env : DpEnv) (domainName currentIP sub n ip : String) :
    (Ev.notify n ip ∈ dnspodSubEvents env domainName currentIP sub ↔
      Ev.provUpdate n ip ∈ dnspodSubEvents env domainName currentIP sub) := by
  rcases henv : env.resolve (sub ++ "." ++ domainName) with e | lastIP
  · simp [dnspodSubEvents, henv]
  · by_cases h : currentIP = lastIP
    · simp [dnspodSubEvents, henv, h]
    · by_cases h2 : (env.getSub sub).1 = "" ∨ (env.getSub sub).2 = ""
      · simp [dnspodSubEvents, henv, h, h2]
      · by_cases h3 : 0 < (env.getSub sub).2.length ∧
            trimRightNewline currentIP ≠ trimRightNewline (env.getSub sub).2
        · simp [dnspodSubEvents, henv, h, h2, h3]
        · simp [dnspodSubEvents, henv, h, h2, h3]

theorem dnspodSubsEvents_pair (env : DpEnv) (domainName currentIP : String)
    (subs : List String) (n ip : String) :
    (Ev.notify n ip ∈ dnspodSubsEvents env domainName currentIP subs ↔
      Ev.provUpdate n ip ∈ dnspodSubsEvents env domainName currentIP subs) := by
  induction subs with
  | nil => simp [dnspodSubsEvents]
  | cons sub rest ih =>
    simp only [dnspodSubsEvents, List.mem_append]
    exact or_congr (dnspodSubEvents_pair env domainName currentIP sub n ip) ih

theorem heSubEvents_pair (env : HeEnv) (domainName currentIP sub n ip : String) :
    (Ev.notify n ip ∈ heSubEvents env domainName currentIP sub ↔
      Ev.provUpdate n ip ∈ heSubEvents env domainName currentIP sub) := by
  rcases henv : env.resolve (sub ++ "." ++ domainName) with e | lastIP
  · simp [heSubEvents, henv]
  · by_cases h : currentIP = lastIP
    · simp [heSubEvents, henv, h]
    · simp [heSubEvents, henv, h]

theorem heSubsEvents_pair (env : HeEnv) (domainName currentIP : String)
    (subs : List String) (n ip : String) :
    (Ev.notify n ip ∈ heSubsEvents env domainName currentIP subs ↔
      Ev.provUpdate n ip ∈ heSubsEvents env domainName currentIP subs) := by
  induction subs with
  | nil => simp [heSubsEvents]
  | cons sub rest ih =>
    simp only [heSubsEvents, List.mem_append]
    exact or_congr (heSubEvents_pair env domainName currentIP sub n ip) ih

/-!
### Concrete example data used by counterexamples and witnesses -/

/-- Example configured domain with two tracked subdomains. -/
def domainEx : Domain := ⟨"example.com", ["a", "b"]⟩

/-- Cloudflare record for subdomain "a" of `domainEx`, stale IP. -/
def recA : DNSRecord := ⟨"ra", "1.1.1.1", "a.example.com"⟩

/-- Cloudflare record for subdomain "b" of `domainEx`, stale IP. -/
def recB : DNSRecord := ⟨"rb", "1.1.1.1", "b.example.com"⟩

/-- Cloudflare iteration environment whose one tracked record needs an
update, with `updateRecord` failing for every record. -/
def cfEnvFail : CfEnv := ⟨.ok "2.2.2.2", "zone1", [recA], fun _ => false⟩

/-- C5 counterexample: in the cloudflare loop the notification is sent right
after `updateRecord` with no success check, so with `updateRecord` failing
(the returned `lastIP` is "") the notifier still fires — refuting the claim
that no notification is fired when the update call fails. -/
theorem notify_on_failed_update_cex :
    cfEnvFail.updateOk recA.ID = false ∧
    (cfIteration domainEx cfEnvFail "").2 = "" ∧
    Ev.notify "a.example.com" "2.2.2.2" ∈ (cfIteration domainEx cfEnvFail "").1 := by
  decide

/-- C5 amended: in the cloudflare, dnspod and he loops, the Notifier is
invoked with (fully qualified hostname, current IP) exactly when a provider
update for that subdomain is attempted — regardless of whether the update
call succeeds (the dnspod and he update functions do not even report
success to the loop). -/
theorem notify_iff_update_attempted (domain : Domain) (cEnv : CfEnv) (dEnv : DpEnv)
    (hEnv : HeEnv) (lastIP domainName currentIP n ip : String) (subs : List String) :
    (Ev.notify n ip ∈ (cfIteration domain cEnv lastIP).1 ↔
      Ev.provUpdate n ip ∈ (cfIteration domain cEnv lastIP).1) ∧
    (Ev.notify n ip ∈ dnspodSubsEvents dEnv domainName currentIP subs ↔
      Ev.provUpdate n ip ∈ dnspodSubsEvents dEnv domainName currentIP subs) ∧
    (Ev.notify n ip ∈ heSubsEvents hEnv domainName currentIP subs ↔
      Ev.provUpdate n ip ∈ heSubsEvents hEnv domainName currentIP subs) :=
  ⟨cfIteration_pair domain cEnv lastIP n ip,
   dnspodSubsEvents_pair dEnv domainName currentIP subs n ip,
   heSubsEvents_pair hEnv domainName currentIP subs n ip⟩

/-- C5 witness: the pairing instantiated at a concrete failing-update
cloudflare environment and concrete dnspod/he environments. -/
theorem notify_iff_update_attempted_witness :
    (Ev.notify "a.example.com" "2.2.2.2" ∈ (cfIteration domainEx cfEnvFail "").1 ↔
      Ev.provUpdate "a.example.com" "2.2.2.2" ∈ (cfIteration domainEx cfEnvFail "").1) ∧
    (Ev.notify "a.example.com" "2.2.2.2" ∈
        dnspodSubsEvents ⟨1, .ok "2.2.2.2", fun _ => .ok "1.1.1.1", fun _ => ("id1", "1.1.1.1")⟩
          "example.com" "2.2.2.2" ["a", "b"] ↔
      Ev.provUpdate "a.example.com" "2.2.2.2" ∈
        dnspodSubsEvents ⟨1, .ok "2.2.2.2", fun _ => .ok "1.1.1.1", fun _ => ("id1", "1.1.1.1")⟩
          "example.com" "2.2.2.2" ["a", "b"]) ∧
    (Ev.notify "a.example.com" "2.2.2.2" ∈
        heSubsEvents ⟨.ok "2.2.2.2", fun _ => .ok "1.1.1.1"⟩ "example.com" "2.2.2.2" ["a", "b"] ↔
      Ev.provUpdate "a.example.com" "2.2.2.2" ∈
        heSubsEvents ⟨.ok "2.2.2.2", fun _ => .ok "1.1.1.1"⟩ "example.com" "2.2.2.2" ["a", "b"]) :=
  notify_iff_update_attempted domainEx cfEnvFail
    ⟨1, .ok "2.2.2.2", fun _ => .ok "1.1.1.1", fun _ => ("id1", "1.1.1.1")⟩
    ⟨.ok "2.2.2.2", fun _ => .ok "1.1.1.1"⟩
    "" "example.com" "2.2.2.2" "a.example.com" "2.2.2.2" ["a", "b"]

/-!
### C2: the comparison policy -/

/-- HE iteration environment whose current IP carries a trailing newline
while the resolved published IP does not. -/
def heEnvNl : HeEnv := ⟨.ok "1.2.3.4\n", fun _ => .ok "1.2.3.4"⟩

/-- C2 counterexample: the he loop compares the raw strings with no trimming,
so a current IP of "1.2.3.4\n" against a published "1.2.3.4" — equal after
trimming trailing newline/whitespace — still attempts an update; moreover the
dnspod record-stage trim removes only '\n', not other trailing whitespace, so
"1.2.3.4 " and "1.2.3.4" also differ for it. -/
theorem comparison_trimming_cex :
    specTrimTrailing "1.2.3.4\n" = specTrimTrailing "1.2.3.4" ∧
    Ev.provUpdate "home.example.com" "1.2.3.4\n" ∈
      heSubEvents heEnvNl "example.com" "1.2.3.4\n" "home" ∧
    specTrimTrailing "1.2.3.4 " = specTrimTrailing "1.2.3.4" ∧
    trimRightNewline "1.2.3.4 " ≠ trimRightNewline "1.2.3.4" := by
  decide

/-- C2 amended: for every current IP and resolved published IP, the he loop
attempts an update iff the two differ as raw strings (no trimming: raw
equality means no update); the dnspod loop attempts an update iff the
current IP differs from the resolved IP as raw strings and, in addition, the
current IP and the provider-listed record value (here configured non-empty)
differ after trimming only trailing newline characters from both sides. -/
theorem comparison_policy (hEnv : HeEnv) (dEnv : DpEnv)
    (domainName currentIP sub lastIP sid ipv : String)
    (hres : hEnv.resolve (sub ++ "." ++ domainName) = .ok lastIP)
    (hdres : dEnv.resolve (sub ++ "." ++ domainName) = .ok lastIP)
    (hsub : dEnv.getSub sub = (sid, ipv))
    (hsid : sid ≠ "") (hipv : ipv ≠ "") :
    (Ev.provUpdate (sub ++ "." ++ domainName) currentIP ∈
        heSubEvents hEnv domainName currentIP sub ↔ currentIP ≠ lastIP) ∧
    (Ev.provUpdate (sub ++ "." ++ domainName) currentIP ∈
        dnspodSubEvents dEnv domainName currentIP sub ↔
      (currentIP ≠ lastIP ∧
        trimRightNewline currentIP ≠ trimRightNewline ipv)) := by
  have hlen : 0 < ipv.length := by
    cases hv : ipv with
    | mk l =>
      cases l with
      | nil => exact absurd hv (by simpa using hipv)
      | cons c cs => simp [String.length, hv]
  constructor
  · by_cases hne : currentIP = lastIP
    · simp [heSubEvents, hres, hne]
    · simp [heSubEvents, hres, hne]
  · by_cases hne : currentIP = lastIP
    · simp [dnspodSubEvents, hdres, hne]
    · by_cases ht : trimRightNewline currentIP ≠ trimRightNewline ipv
      · simp [dnspodSubEvents, hdres, hne, hsub, hsid, hipv, hlen, ht]
      · simp [dnspodSubEvents, hdres, hne, hsub, hsid, hipv, hlen, ht]

/-- C2 witness: concrete environments where the update is attempted exactly
on a raw (he) respectively raw-and-newline-trimmed (dnspod) difference. -/
theorem comparison_policy_witness :
    (Ev.provUpdate "home.example.com" "1.2.3.4\n" ∈
        heSubEvents heEnvNl "example.com" "1.2.3.4\n" "home" ↔
      ("1.2.3.4\n" : String) ≠ "1.2.3.4") ∧
    (Ev.provUpdate "home.example.com" "1.2.3.4\n" ∈
        dnspodSubEvents ⟨1, .ok "1.2.3.4\n", fun _ => .ok "1.2.3.4", fun _ => ("id1", "1.2.3.4")⟩
          "example.com" "1.2.3.4\n" "home" ↔
      (("1.2.3.4\n" : String) ≠ "1.2.3.4" ∧
        trimRightNewline "1.2.3.4\n" ≠ trimRightNewline "1.2.3.4")) :=
  comparison_policy heEnvNl
    ⟨1, .ok "1.2.3.4\n", fun _ => .ok "1.2.3.4", fun _ => ("id1", "1.2.3.4")⟩
    "example.com" "1.2.3.4\n" "home" "1.2.3.4" "id1" "1.2.3.4"
    rfl rfl rfl (by decide) (by decide)

/-!
### Multi-iteration runs of the cloudflare loop -/

theorem cfRun_nil (domain : Domain) (st : List Ev × String) : cfRun domain [] st = st := rfl

theorem cfRun_cons (domain : Domain) (e : CfEnv) (t : List CfEnv) (st : List Ev × String) :
    cfRun domain (e :: t) st =
      cfRun domain t (st.1 ++ (cfIteration domain e st.2).1, (cfIteration domain e st.2).2) := rfl

theorem cfRun_const (domain : Domain) (c : String) :
    ∀ (envs : List CfEnv) (st : List Ev × String), st.2 = c →
      (∀ e ∈ envs, e.currentIP = .ok c) →
      cfRun domain envs st = (st.1 ++ List.replicate envs.length .logSkip, c) := by
  intro envs
  induction envs with
  | nil =>
    intro st h2 _
    cases st
    simp_all [cfRun_nil]
  | cons e t ih =>
    intro st h2 hall
    have hiter : cfIteration domain e st.2 = ([.logSkip], c) := by
      have he : e.currentIP = .ok c := hall e (by simp)
      simp [cfIteration, he, h2]
    rw [cfRun_cons, hiter]
    rw [ih _ rfl (fun x hx => hall x (List.mem_cons_of_mem e hx))]
    simp [List.replicate_succ, List.append_assoc]

theorem cfRun_ip_failures (domain : Domain) :
    ∀ (envs : List CfEnv) (st : List Ev × String),
      (∀ e ∈ envs, ∃ msg, e.currentIP = .error msg) →
      cfRun domain envs st = (st.1 ++ List.replicate envs.length .logIPFail, st.2) := by
  intro envs
  induction envs with
  | nil =>
    intro st _
    cases st
    simp [cfRun_nil]
  | cons e t ih =>
    intro st hall
    obtain ⟨msg, hmsg⟩ := hall e (by simp)
    have hiter : cfIteration domain e st.2 = ([.logIPFail], st.2) := by
      simp [cfIteration, hmsg]
    rw [cfRun_cons, hiter]
    rw [ih _ (fun x hx => hall x (List.mem_cons_of_mem e hx))]
    simp [List.replicate_succ, List.append_assoc]

/-!
### C3: iterations where obtaining the current IP fails -/

/-- DNSPod iteration environment whose `GetDomain` succeeded but whose
`GetCurrentIP` fails. -/
def dpEnvIPFail : DpEnv := ⟨1, .error "network down", fun _ => .error "x", fun _ => ("", "")⟩

/-- C3 counterexample: in the dnspod loop `GetDomain` posts `/Domain.List` —
a Provider Client call — before `GetCurrentIP` is consulted, so an iteration
whose IP lookup fails still contains a provider call. -/
theorem ip_failure_no_provider_calls_cex :
    dpEnvIPFail.currentIP = .error "network down" ∧
    (dnspodIteration domainEx dpEnvIPFail).filter isProviderCall = [.provDomainList] ∧
    (dnspodIteration domainEx dpEnvIPFail).filter isProviderCall ≠ [] := by
  refine ⟨rfl, ?_, ?_⟩ <;> decide

/-- C3 amended: when `GetCurrentIP` fails, the cloudflare and he loops make
no provider call at all in that iteration, while the dnspod loop has already
made exactly its leading `/Domain.List` call and makes no further one; the
remainder of the iteration is skipped and the loop proceeds. Three (indeed
any number of) consecutive failing cloudflare iterations leave the loop
state unchanged and produce no provider calls, and the loop keeps running. -/
theorem ip_failure_skips_iteration (domain : Domain) (dEnv : DpEnv) (cEnv : CfEnv)
    (hEnv : HeEnv) (lastIP m1 m2 m3 : String) (envs : List CfEnv)
    (hd : dEnv.currentIP = .error m1) (hdid : dEnv.domainID ≠ -1)
    (hc : cEnv.currentIP = .error m2) (hh : hEnv.currentIP = .error m3)
    (henvs : ∀ e ∈ envs, ∃ msg, e.currentIP = .error msg) :
    dnspodIteration domain dEnv = [.provDomainList, .logIPFail] ∧
    cfIteration domain cEnv lastIP = ([.logIPFail], lastIP) ∧
    heIteration domain hEnv = [.logIPFail] ∧
    cfRun domain envs ([], lastIP) = (List.replicate envs.length .logIPFail, lastIP) := by
  refine ⟨?_, ?_, ?_, ?_⟩
  · simp [dnspodIteration, hd, hdid]
  · simp [cfIteration, hc]
  · simp [heIteration, hh]
  · simpa using cfRun_ip_failures domain envs ([], lastIP) henvs

/-- C3 witness: three consecutive failing cloudflare iterations produce only
the three failure log lines and leave `lastIP` unchanged; the concrete dnspod
iteration performs only its leading provider call. -/
theorem ip_failure_skips_iteration_witness :
    dnspodIteration domainEx dpEnvIPFail = [.provDomainList, .logIPFail] ∧
    cfIteration domainEx ⟨.error "down", "z", [], fun _ => true⟩ "9.9.9.9" =
      ([.logIPFail], "9.9.9.9") ∧
    heIteration domainEx ⟨.error "down", fun _ => .ok "1.1.1.1"⟩ = [.logIPFail] ∧
    cfRun domainEx
        [⟨.error "down", "z", [], fun _ => true⟩, ⟨.error "down", "z", [], fun _ => true⟩,
         ⟨.error "down", "z", [], fun _ => true⟩] ([], "9.9.9.9") =
      (List.replicate 3 .logIPFail, "9.9.9.9") :=
  ip_failure_skips_iteration domainEx dpEnvIPFail
    ⟨.error "down", "z", [], fun _ => true⟩ ⟨.error "down", fun _ => .ok "1.1.1.1"⟩
    "9.9.9.9" "network down" "down" "down"
    [⟨.error "down", "z", [], fun _ => true⟩, ⟨.error "down", "z", [], fun _ => true⟩,
     ⟨.error "down", "z", [], fun _ => true⟩]
    rfl (by decide) rfl rfl
    (by
      intro e he
      simp only [List.mem_cons, List.not_mem_nil, or_false] at he
      rcases he with h | h | h <;> subst h <;> exact ⟨"down", rfl⟩)

/-!
### C7: idempotence -/

/-- C7: if the current IP equals the loop's cached/published IP, no update
call is issued: any number of consecutive cloudflare iterations with the
current IP equal to `lastIP` produce only skip logs (no provider calls, no
updates) and leave `lastIP` unchanged, and a dnspod subdomain whose resolved
published IP equals the current IP is skipped. -/
theorem idempotent_no_update (domain : Domain) (envs : List CfEnv) (c : String)
    (dEnv : DpEnv) (domainName sub : String)
    (hall : ∀ e ∈ envs, e.currentIP = .ok c)
    (hres : dEnv.resolve (sub ++ "." ++ domainName) = .ok c) :
    cfRun domain envs ([], c) = (List.replicate envs.length .logSkip, c) ∧
    (∀ n ip, Ev.provUpdate n ip ∉ (cfRun domain envs ([], c)).1) ∧
    dnspodSubEvents dEnv domainName c sub = [.logSkip] := by
  have hrun := cfRun_const domain c envs ([], c) rfl hall
  simp only [List.nil_append] at hrun
  refine ⟨hrun, ?_, ?_⟩
  · intro n ip hmem
    rw [hrun] at hmem
    simp only [List.mem_replicate] at hmem
    exact absurd hmem.2 (by simp)
  · simp [dnspodSubEvents, hres]

/-- C7 witness: two consecutive cloudflare iterations with an unchanged
current IP, and a dnspod subdomain whose published IP equals the current. -/
theorem idempotent_no_update_witness :
    cfRun domainEx
        [⟨.ok "5.6.7.8", "z", [recA], fun _ => true⟩, ⟨.ok "5.6.7.8", "z", [recA], fun _ => true⟩]
        ([], "5.6.7.8") = (List.replicate 2 .logSkip, "5.6.7.8") ∧
    (∀ n ip, Ev.provUpdate n ip ∉
      (cfRun domainEx
        [⟨.ok "5.6.7.8", "z", [recA], fun _ => true⟩, ⟨.ok "5.6.7.8", "z", [recA], fun _ => true⟩]
        ([], "5.6.7.8")).1) ∧
    dnspodSubEvents ⟨1, .ok "5.6.7.8", fun _ => .ok "5.6.7.8", fun _ => ("id1", "5.6.7.8")⟩
      "example.com" "5.6.7.8" "a" = [.logSkip] :=
  idempotent_no_update domainEx
    [⟨.ok "5.6.7.8", "z", [recA], fun _ => true⟩, ⟨.ok "5.6.7.8", "z", [recA], fun _ => true⟩]
    "5.6.7.8" ⟨1, .ok "5.6.7.8", fun _ => .ok "5.6.7.8", fun _ => ("id1", "5.6.7.8")⟩
    "example.com" "a"
    (by
      intro e he
      simp only [List.mem_cons, List.not_mem_nil, or_false] at he
      rcases he with h | h <;> subst h <;> rfl)
    rfl

/-!
### C4: failed updates and the shared per-domain `lastIP` -/

/-- Cloudflare iteration environment in which the update for record "ra"
fails while the update for record "rb" succeeds. -/
def cfEnvMixed : CfEnv := ⟨.ok "2.2.2.2", "zone1", [recA, recB], fun id => id == "rb"⟩

/-- C4 counterexample: record "a"'s update fails but record "b"'s later
success in the same iteration sets the shared per-domain `lastIP` to the
current IP, so the next iteration compares equal, emits only a skip log, and
does not retry "a" — refuting "the update is retried regardless of what
happens to other subdomains' updates in the same iteration". -/
theorem failed_update_not_retried_cex :
    cfEnvMixed.updateOk recA.ID = false ∧
    recA.IP ≠ "2.2.2.2" ∧
    (cfIteration domainEx cfEnvMixed "").2 = "2.2.2.2" ∧
    (cfIteration domainEx cfEnvMixed ((cfIteration domainEx cfEnvMixed "").2)).1 =
      [.logSkip] := by
  refine ⟨rfl, by decide, by decide, by decide⟩

theorem cfUpd_keeps_empty (env : CfEnv) (domain : Domain) (currentIP : String) :
    ∀ (post : List DNSRecord),
      (∀ r ∈ post, recordTracked domain r = true → r.IP ≠ currentIP →
        env.updateOk r.ID = false) →
      post.foldl (cfUpd env domain currentIP) "" = "" := by
  intro post
  induction post with
  | nil => intro _; rfl
  | cons r t ih =>
    intro hall
    have hr : cfUpd env domain currentIP "" r = "" := by
      unfold cfUpd
      by_cases ht : recordTracked domain r = false
      · simp [ht]
      · have htr : recordTracked domain r = true := by
          cases hv : recordTracked domain r
          · exact absurd hv ht
          · rfl
        by_cases hm : r.IP ≠ currentIP
        · simp [ht, hm, hall r (by simp) htr hm]
        · simp [ht, hm]
    rw [List.foldl_cons, hr]
    exact ih fun x hx => hall x (List.mem_cons_of_mem r hx)

/-- C4 amended: when the update for a tracked, mismatched record fails,
`updateRecord` returns "" and the shared `lastIP` becomes "" — provided no
later record in the same iteration performs a successful update — so the
next iteration of the loop (current IP unchanged and non-empty) again sees a
mismatch and re-attempts the update for that record; a later successful
update in the same iteration instead overwrites `lastIP` with the current IP
and suppresses the retry (see the counterexample). -/
theorem failed_update_lastIP_and_retry (domain : Domain) (env : CfEnv)
    (currentIP lastIP0 : String) (pre post : List DNSRecord) (rec : DNSRecord)
    (hip : env.currentIP = .ok currentIP) (hne : currentIP ≠ lastIP0)
    (hce : currentIP ≠ "") (hz : env.zoneID ≠ "")
    (hr : env.records = pre ++ rec :: post)
    (ht : recordTracked domain rec = true) (hm : rec.IP ≠ currentIP)
    (hf : env.updateOk rec.ID = false)
    (hpost : ∀ r ∈ post, recordTracked domain r = true → r.IP ≠ currentIP →
      env.updateOk r.ID = false) :
    (cfIteration domain env lastIP0).2 = "" ∧
    Ev.provUpdate rec.Name currentIP ∈ (cfIteration domain env "").1 := by
  have hub : cfAdd domain currentIP rec =
      [.provUpdate rec.Name currentIP, .notify rec.Name currentIP] := by
    unfold cfAdd
    simp [ht, hm]
  have hupd : ∀ s : String, cfUpd env domain currentIP s rec = "" := by
    intro s
    unfold cfUpd
    simp [ht, hm, hf]
  constructor
  · have : cfIteration domain env lastIP0 =
        env.records.foldl (cfLoopBody env domain currentIP)
          ([.provZoneList, .provDnsRecords], lastIP0) := by
      simp [cfIteration, hip, hne, hz]
    rw [this, cfFold_eq, hr]
    simp only [List.foldl_append, List.foldl_cons]
    rw [hupd]
    exact cfUpd_keeps_empty env domain currentIP post hpost
  · have : cfIteration domain env "" =
        env.records.foldl (cfLoopBody env domain currentIP)
          ([.provZoneList, .provDnsRecords], "") := by
      simp [cfIteration, hip, hce, hz]
    rw [this, cfFold_eq, hr, cfAddAll_append]
    simp only [cfAddAll, hub]
    simp

/-- C4 witness: a single tracked record whose update fails leaves `lastIP`
empty, and the next iteration attempts the update again. -/
theorem failed_update_lastIP_and_retry_witness :
    (cfIteration domainEx cfEnvFail "9.9.9.9").2 = "" ∧
    Ev.provUpdate recA.Name "2.2.2.2" ∈ (cfIteration domainEx cfEnvFail "").1 :=
  failed_update_lastIP_and_retry domainEx cfEnvFail "2.2.2.2" "9.9.9.9" [] [] recA
    rfl (by decide) (by decide) (by decide) rfl (by decide) (by decide) rfl
    (by intro r hr; exact absurd hr (List.not_mem_nil r))

/-!
### C8: empty provider record list -/

/-- C8: when the provider's `/Record.List` returns status "1" with an empty
record list, `GetSubDomain` yields `("", "")`, the loop logs the
not-configured condition for that subdomain, attempts no update and sends no
notification for it, and continues with the remaining subdomains of the same
domain. -/
theorem empty_record_list_skips_subdomain (env : DpEnv)
    (domainName currentIP sub lastIP : String) (rest : List String)
    (hres : env.resolve (sub ++ "." ++ domainName) = .ok lastIP)
    (hne : currentIP ≠ lastIP)
    (hsub : env.getSub sub = GetSubDomain (some ("1", [])) sub) :
    GetSubDomain (some ("1", [])) sub = ("", "") ∧
    dnspodSubEvents env domainName currentIP sub =
      [.provRecordList sub, .logNotConfigured sub] ∧
    (∀ n ip, Ev.provUpdate n ip ∉ dnspodSubEvents env domainName currentIP sub) ∧
    (∀ n ip, Ev.notify n ip ∉ dnspodSubEvents env domainName currentIP sub) ∧
    dnspodSubsEvents env domainName currentIP (sub :: rest) =
      dnspodSubEvents env domainName currentIP sub ++
        dnspodSubsEvents env domainName currentIP rest := by
  have hgs : GetSubDomain (some ("1", [])) sub = ("", "") := rfl
  have hev : dnspodSubEvents env domainName currentIP sub =
      [.provRecordList sub, .logNotConfigured sub] := by
    rw [hgs] at hsub
    simp [dnspodSubEvents, hres, hne, hsub]
  refine ⟨hgs, hev, ?_, ?_, rfl⟩
  · intro n ip hmem
    rw [hev] at hmem
    simp at hmem
  · intro n ip hmem
    rw [hev] at hmem
    simp at hmem

/-- C8 witness: a concrete dnspod environment whose record listing for "a"
is empty skips that subdomain and proceeds. -/
theorem empty_record_list_skips_subdomain_witness :
    GetSubDomain (some ("1", [])) "a" = ("", "") ∧
    dnspodSubEvents ⟨1, .ok "2.2.2.2", fun _ => .ok "1.1.1.1", fun _ => ("", "")⟩
        "example.com" "2.2.2.2" "a" = [.provRecordList "a", .logNotConfigured "a"] ∧
    (∀ n ip, Ev.provUpdate n ip ∉
      dnspodSubEvents ⟨1, .ok "2.2.2.2", fun _ => .ok "1.1.1.1", fun _ => ("", "")⟩
        "example.com" "2.2.2.2" "a") ∧
    (∀ n ip, Ev.notify n ip ∉
      dnspodSubEvents ⟨1, .ok "2.2.2.2", fun _ => .ok "1.1.1.1", fun _ => ("", "")⟩
        "example.com" "2.2.2.2" "a") ∧
    dnspodSubsEvents ⟨1, .ok "2.2.2.2", fun _ => .ok "1.1.1.1", fun _ => ("", "")⟩
        "example.com" "2.2.2.2" ["a", "b"] =
      dnspodSubEvents ⟨1, .ok "2.2.2.2", fun _ => .ok "1.1.1.1", fun _ => ("", "")⟩
          "example.com" "2.2.2.2" "a" ++
        dnspodSubsEvents ⟨1, .ok "2.2.2.2", fun _ => .ok "1.1.1.1", fun _ => ("", "")⟩
          "example.com" "2.2.2.2" ["b"] :=
  empty_record_list_skips_subdomain
    ⟨1, .ok "2.2.2.2", fun _ => .ok "1.1.1.1", fun _ => ("", "")⟩
    "example.com" "2.2.2.2" "a" "1.1.1.1" ["b"] rfl (by decide) rfl

end Godns
